import Mathlib

/-!
# Verification of the tunnel-GM vault plugin core

Shallow embedding of the two core components of the repository:

* `src/src/server/ServerManager.js` — the local HTTP route dispatcher
  (route registration in a JS `Map`, route-to-regex compilation, parameter
  extraction, CORS preflight short-circuit, server lifecycle);
* `src/unnamed/part_007` (`TunnelManager.js`) — the cloudflared tunnel
  supervisor (binary provisioning `_ensureCloudflared`, the `start()`
  acquisition race between the hostname scanner and the 30 s timer, the
  `close` and `error` subprocess events, `stop()`, `isActive()`,
  `getPublicUrl()`).

JS strings are modelled as Lean `String` (ASCII contents, so JS UTF-16
code-unit indexing such as `substring(0, 500)` coincides with character
indexing).  The settle-once behaviour of a JS `Promise` (a second
`resolve`/`reject` on an already settled promise is a no-op) is part of
the language runtime and is modelled by `PromiseState.resolveWith` /
`PromiseState.rejectWith`.  Asynchronous callbacks (`stdout`/`stderr`
`data`, subprocess `close`/`error`, the timer) are modelled as an event
list folded over a per-call acquisition state, which is exactly the
single-threaded event-loop model of Node.
-/

/-! ## TunnelManager: instance state and the per-call acquisition state -/

/-- Instance fields of `TunnelManager` that the claims are about:
`this.tunnel` (the subprocess handle, `null` or set) and `this.publicUrl`
(`TunnelManager.js` lines 45-50). -/
structure TMState where
  tunnel : Option Unit
  publicUrl : Option String
deriving DecidableEq, Repr

/-- `isActive()` — `return this.tunnel !== null` (line 505). -/
def isActive (tm : TMState) : Bool :=
  tm.tunnel.isSome

/-- `getPublicUrl()` — `return this.publicUrl` (line 514). -/
def getPublicUrl (tm : TMState) : Option String :=
  tm.publicUrl

/-- `stop()` (lines 486-498): returns at once when `this.tunnel` is null;
otherwise kills the subprocess and clears both fields. -/
def stopTM (tm : TMState) : TMState :=
  if tm.tunnel.isSome then { tunnel := none, publicUrl := none } else tm

/-- Errors raised by `start()`.  Constructors carry the dynamic data the
corresponding `new Error(...)` message is built from:
`alreadyActive` = "Tunnel is already active" (line 386),
`spawnEnoent` = "cloudflared binary not found or not executable." (line 442),
`spawnOther msg` = "Error starting cloudflared: " ++ msg (line 444),
`prematureExit code diag` = "cloudflared exited with code " ++ code with the
first 500 characters of the combined output appended (lines 453-459),
`acquisitionTimeout diag` = "Timeout waiting for cloudflared URL. Output: "
++ the first 500 characters of the combined output (line 475). -/
inductive TunnelError where
  | alreadyActive
  | spawnEnoent
  | spawnOther (msg : String)
  | prematureExit (code : Int) (diag : String)
  | acquisitionTimeout (diag : String)
deriving DecidableEq, Repr

/-- The settlement state of the JS promise returned by `start()`. -/
inductive PromiseState where
  | pending
  | resolved (url : String)
  | rejected (err : TunnelError)
deriving DecidableEq, Repr

/-- JS promise `resolve`: settles only a pending promise; a no-op on an
already settled one. -/
def PromiseState.resolveWith : PromiseState → String → PromiseState
  | .pending, u => .resolved u
  | p, _ => p

/-- JS promise `reject`: settles only a pending promise; a no-op on an
already settled one. -/
def PromiseState.rejectWith : PromiseState → TunnelError → PromiseState
  | .pending, e => .rejected e
  | p, _ => p

/-- The per-`start()`-call acquisition state: the instance fields plus the
closure-captured locals `output`, `errorOutput`, `urlResolved` and the
armed/cleared status of the 30 s timer (lines 405-410), together with the
settlement state of the promise returned by `start()`. -/
structure Acq where
  tm : TMState
  output : String
  errorOutput : String
  urlResolved : Bool
  timerActive : Bool
  promise : PromiseState
deriving DecidableEq, Repr

/-! ## Hostname scanning

`tryResolveUrl` matches `text` against the regex
`/https:\/\/[a-z0-9-]+\.trycloudflare\.com/gi` and takes the first match
(line 416).  Because `.` is not in the class `[a-z0-9-]`, the greedy run
of class characters is forced to be maximal, so the leftmost match is
computed without backtracking: at each start position, match `https://`
case-insensitively, then a maximal nonempty run of class characters, then
`.trycloudflare.com` case-insensitively. -/

/-- One character of the class `[a-z0-9-]` under the `i` flag. -/
def hostChar (c : Char) : Bool :=
  let d := c.toLower
  (d ≥ 'a' && d ≤ 'z') || (d ≥ '0' && d ≤ '9') || d == '-'

/-- Case-insensitive literal match of `pat` against a prefix of `s`,
returning the matched prefix (original case, as JS `match` does) and the
remainder. -/
def stripCI : List Char → List Char → Option (List Char × List Char)
  | [], s => some ([], s)
  | _ :: _, [] => none
  | p :: ps, c :: cs =>
    if p.toLower == c.toLower then
      match stripCI ps cs with
      | some (m, rest) => some (c :: m, rest)
      | none => none
    else none

/-- Try the hostname regex anchored at the head of `s`. -/
def hostAt (s : List Char) : Option (List Char) :=
  match stripCI "https://".data s with
  | none => none
  | some (m1, rest) =>
    let run := rest.takeWhile hostChar
    if run.isEmpty then none
    else
      match stripCI ".trycloudflare.com".data (rest.dropWhile hostChar) with
      | none => none
      | some (m2, _) => some (m1 ++ run ++ m2)

/-- Leftmost match of the hostname regex in a character list. -/
def findHostnameAux : List Char → Option String
  | [] => none
  | c :: cs =>
    match hostAt (c :: cs) with
    | some m => some (String.mk m)
    | none => findHostnameAux cs

/-- First match of `/https:\/\/[a-z0-9-]+\.trycloudflare\.com/gi` in `text`
(`urlMatch[0]` of line 416), or `none`. -/
def findHostname (text : String) : Option String :=
  findHostnameAux text.data

/-- JS `String.prototype.toLowerCase` (ASCII contents). -/
def jsToLower (s : String) : String :=
  String.mk (s.data.map Char.toLower)

/-- JS `String.prototype.substring(0, 500)` (ASCII contents): the first 500
characters; the whole string when shorter. -/
def jsSubstring500 (s : String) : String :=
  String.mk (s.data.take 500)

/-! ## The acquisition race as an event-step machine -/

/-- The asynchronous callbacks attached inside `start()`'s promise executor
(lines 394-478): a `data` chunk on stdout or stderr, the subprocess
`error` event (with its ENOENT discrimination), the subprocess `close`
event (exit code, `none` when killed by a signal), and the 30 s timer. -/
inductive Event where
  | stdoutData (text : String)
  | stderrData (text : String)
  | procError (enoent : Bool) (msg : String)
  | close (code : Option Int)
  | timerFire
deriving DecidableEq, Repr

/-- `tryResolveUrl(text)` (lines 412-426): return at once when
`urlResolved`; otherwise on the first regex match store the lower-cased
match in `this.publicUrl`, set `urlResolved`, clear the timer, and call
`resolve(this.publicUrl)`. -/
def tryResolveUrl (s : Acq) (text : String) : Acq :=
  if s.urlResolved then s
  else
    match findHostname text with
    | none => s
    | some u =>
      let url := jsToLower u
      { s with
        tm := { s.tm with publicUrl := some url }
        urlResolved := true
        timerActive := false
        promise := s.promise.resolveWith url }

/-- One event-loop callback of the acquisition race.

* `stdoutData` / `stderrData` (lines 428-438): append the chunk to the
  corresponding buffer unconditionally, then `tryResolveUrl(text)`.
* `procError` (lines 440-446): reject with the ENOENT or generic error.
* `close code` (lines 448-469): a no-op when `urlResolved`, or when the
  exit code is `0` or `null`; otherwise null out `this.tunnel` and
  `this.publicUrl` and reject with the exit code and the first 500
  characters of `output + errorOutput` (the `Output:` section of the
  message, empty when there was no output).
* `timerFire` (lines 471-477): when the timer is still armed and
  `urlResolved` is false, kill and null out `this.tunnel` and reject with
  the first 500 characters of `output + errorOutput`.  The handler does
  not set `urlResolved`. -/
def step (s : Acq) : Event → Acq
  | .stdoutData t => tryResolveUrl { s with output := s.output ++ t } t
  | .stderrData t => tryResolveUrl { s with errorOutput := s.errorOutput ++ t } t
  | .procError enoent msg =>
    { s with promise :=
        s.promise.rejectWith (if enoent then .spawnEnoent else .spawnOther msg) }
  | .close code =>
    if s.urlResolved then s
    else
      match code with
      | some c =>
        if c ≠ 0 then
          { s with
            tm := { tunnel := none, publicUrl := none }
            promise := s.promise.rejectWith
              (.prematureExit c (jsSubstring500 (s.output ++ s.errorOutput))) }
        else s
      | none => s
  | .timerFire =>
    if s.timerActive then
      if s.urlResolved then { s with timerActive := false }
      else
        { s with
          timerActive := false
          tm := { s.tm with tunnel := none }
          promise := s.promise.rejectWith
            (.acquisitionTimeout (jsSubstring500 (s.output ++ s.errorOutput))) }
    else s

/-- Fold a sequence of event-loop callbacks over the acquisition state. -/
def runEvents (s : Acq) (evs : List Event) : Acq :=
  evs.foldl step s

/-- Whether an event is an output chunk containing a hostname match. -/
def eventHasHostname : Event → Bool
  | .stdoutData t => (findHostname t).isSome
  | .stderrData t => (findHostname t).isSome
  | _ => false

/-- `start()`'s guard (lines 385-387): `if (this.tunnel) throw new
Error('Tunnel is already active')`. -/
def startEntry (tm : TMState) : Except TunnelError Unit :=
  if tm.tunnel.isSome then .error .alreadyActive else .ok ()

/-- The instance state while `await this._ensureCloudflared(...)` (line
391) is pending: between the guard and the spawn, `start()` writes no
instance field, and `_ensureCloudflared` / `_downloadCloudflared` write
none either (lines 219-376 only read `pluginDir` and the filesystem), so
the state observed by a concurrently arriving second `start()` call is the
entry state unchanged. -/
def duringProvisioning (tm : TMState) : TMState :=
  tm

/-- The instance state right after `this.tunnel = spawn(...)` (line 396). -/
def afterSpawn (tm : TMState) : TMState :=
  { tm with tunnel := some () }

/-- The acquisition state at the end of the promise executor of a
`start()` call beginning from instance state `tm`: subprocess spawned,
buffers empty, `urlResolved` false, timer armed, promise pending
(lines 394-410 and 471-477). -/
def initAcq (tm : TMState) : Acq :=
  { tm := afterSpawn tm
    output := ""
    errorOutput := ""
    urlResolved := false
    timerActive := true
    promise := .pending }

/-- The acquisition state of a `start()` call from the idle instance
state (`tunnel` and `publicUrl` both null). -/
def startAcq : Acq :=
  initAcq { tunnel := none, publicUrl := none }

example : findHostname "2024-01-01 INF https://abc-12.trycloudflare.com ok" =
    some "https://abc-12.trycloudflare.com" := by decide

example : findHostname "no url here" = none := by decide

example : (runEvents startAcq [.stdoutData "https://a.trycloudflare.com"]).promise =
    .resolved "https://a.trycloudflare.com" := by decide

/-! ## ServerManager: route table, matcher, dispatch

`ServerManager.js`.  Routes live in `this.routes = new Map()` keyed by
the string `method + ":" + path` (line 100); a handler is identified here
by a `Nat`.  Route-to-regex compilation (`_routeToRegex`, lines 174-185)
escapes only `/` in the literal parts, so this embedding covers routes
whose literal characters are regex-neutral (letters, digits, `/`, `-`,
`_`), which is every route the plugin registers. -/

/-- One entry of the `routes` map: the `"METHOD:path"` key and the handler. -/
structure RouteEntry where
  key : String
  handlerId : Nat
deriving DecidableEq, Repr

/-- JS `Map.prototype.set`: replace the value in place when the key is
present (insertion position kept), append otherwise.  Keys are unique by
construction, so replacing the first occurrence is exact. -/
def routesSet : List RouteEntry → String → Nat → List RouteEntry
  | [], k, h => [{ key := k, handlerId := h }]
  | r :: rs, k, h =>
    if r.key == k then { key := k, handlerId := h } :: rs
    else r :: routesSet rs k h

/-- Whether the map holds an entry for key `k`. -/
def hasKey (rs : List RouteEntry) (k : String) : Bool :=
  rs.any (·.key == k)

/-- `registerRoute(method, path, handler)` (lines 99-102). -/
def registerRoute (rs : List RouteEntry) (method path : String) (h : Nat) :
    List RouteEntry :=
  routesSet rs (method ++ ":" ++ path) h

/-- `_findRoute`'s key split (lines 147-149): `indexOf(':')` then
`substring`; when no colon is present (unreachable for keys built by
`registerRoute`) JS yields an empty method and the whole key as path. -/
def splitKey (key : String) : String × String :=
  if key.data.contains ':' then
    (String.mk (key.data.takeWhile (· != ':')),
     String.mk ((key.data.dropWhile (· != ':')).drop 1))
  else ("", key)

/-- A route-template token: a literal character, or a named segment
`:name` compiled to the capture group `([^/]+)`. -/
inductive RTok where
  | lit (c : Char)
  | param (name : String)
deriving DecidableEq, Repr

/-- A `\w` character (JS word character, ASCII). -/
def wordChar (c : Char) : Bool :=
  (c ≥ 'a' && c ≤ 'z') || (c ≥ 'A' && c ≤ 'Z') || (c ≥ '0' && c ≤ '9') || c == '_'

/-- Tokenise a route template: `:` followed by one or more word characters
is a named segment (the `:(\w+)` replacement of line 183); everything else
is literal.  Fuel-indexed for structural recursion; each step consumes at
least one character, so fuel equal to the length is enough. -/
def parseRouteF : Nat → List Char → List RTok
  | 0, _ => []
  | _ + 1, [] => []
  | n + 1, ':' :: cs =>
    match cs.takeWhile wordChar with
    | [] => .lit ':' :: parseRouteF n cs
    | w => .param (String.mk w) :: parseRouteF n (cs.dropWhile wordChar)
  | n + 1, c :: cs => .lit c :: parseRouteF n cs

/-- Tokenised form of a route template. -/
def parseRoute (cs : List Char) : List RTok :=
  parseRouteF cs.length cs

/-- The parameter names of a route, in declaration order — the
`matchAll(/:(\w+)/g)` loop of `_extractParams` (lines 201-204). -/
def paramNames (route : String) : List String :=
  (parseRoute route.data).filterMap fun t =>
    match t with
    | .param n => some n
    | .lit _ => none

/-- Backtracking loop for one `([^/]+)` group: `rseg` is the reversed
candidate capture (tried greedily, giving characters back from the right
on failure, as the JS regex engine does), `rest` the remaining input, and
`k` the continuation matching the rest of the tokens. -/
def paramLoop (k : List Char → Option (List String)) :
    List Char → List Char → Option (List String)
  | [], _ => none
  | c :: rseg, rest =>
    match k rest with
    | some caps => some (String.mk ((c :: rseg).reverse) :: caps)
    | none => paramLoop k rseg (c :: rest)

/-- Anchored match of a token sequence against a path (the `^...$` regex
of line 184), producing the captures of the `([^/]+)` groups in order.
Fuel-indexed; every recursive call consumes one token, so fuel above the
token count is enough. -/
def matchToksF : Nat → List RTok → List Char → Option (List String)
  | 0, _, _ => none
  | _ + 1, [], xs => if xs.isEmpty then some [] else none
  | _ + 1, .lit _ :: _, [] => none
  | n + 1, .lit c :: ts, x :: xs => if x == c then matchToksF n ts xs else none
  | n + 1, .param _ :: ts, xs =>
    paramLoop (fun rest => matchToksF n ts rest)
      ((xs.takeWhile (· != '/')).reverse) (xs.dropWhile (· != '/'))

/-- Anchored match with captures of a route template without a trailing
wildcard. -/
def matchToks (ts : List RTok) (xs : List Char) : Option (List String) :=
  matchToksF (ts.length + xs.length + 1) ts xs

/-- A JS-regex `.` without the `s` flag: any character that is not a line
terminator. -/
def noLineTerminator (c : Char) : Bool :=
  c != '\n' && c != '\r' && c != '\u2028' && c != '\u2029'

/-- The wildcard regex `^<base>/.*$` built by `_routeToRegex` for routes
ending in `/*` (lines 176-179): the path extends `base ++ "/"` and the
remainder has no line terminator (`.` does not match one, and the regex
has neither the `s` nor the `m` flag). -/
def wildcardMatches (base pathname : List Char) : Bool :=
  (base ++ ['/']).isPrefixOf pathname &&
    (pathname.drop (base.length + 1)).all noLineTerminator

/-- Whether a route ends in the `/*` wildcard. -/
def routeIsWildcard (route : List Char) : Bool :=
  ['/', '*'].isSuffixOf route

/-- `pathname.match(_routeToRegex(route))`: `some captures` when the path
matches (the wildcard regex has no groups, so its capture list is empty),
`none` otherwise. -/
def routeCaptures (route pathname : String) : Option (List String) :=
  if routeIsWildcard route.data then
    if wildcardMatches (route.data.dropLast.dropLast) pathname.data then some []
    else none
  else
    matchToks (parseRoute route.data) pathname.data

/-- Whether the compiled route regex matches the path (line 157). -/
def routeMatches (route pathname : String) : Bool :=
  (routeCaptures route pathname).isSome

/-- `_extractParams(method, pathname, route)` (lines 196-217): zip the
declared parameter names with the positional captures (`match[i + 1]`).
A name without a corresponding group (only possible for a wildcard route
that also contains `:name` text, which the wildcard regex treats
literally) gets JS `undefined` and is omitted here. -/
def extractParams (pathname route : String) : List (String × String) :=
  match routeCaptures route pathname with
  | some caps => (paramNames route).zip caps
  | none => []

/-- The handler entry `_findRoute` returns: `{ fn, route: routePath }`. -/
structure RouteHit where
  handlerId : Nat
  route : String
deriving DecidableEq, Repr

/-- `_findRoute(method, pathname)` (lines 144-165): iterate the map in
insertion order; skip entries whose method differs; return the first
entry whose compiled regex matches the path. -/
def findRoute : List RouteEntry → String → String → Option RouteHit
  | [], _, _ => none
  | r :: rs, method, pathname =>
    if (splitKey r.key).1 == method && routeMatches (splitKey r.key).2 pathname then
      some { handlerId := r.handlerId, route := (splitKey r.key).2 }
    else findRoute rs method pathname

/-- The five uniform CORS headers `_setCORSHeaders` sets on every
response (lines 226-237). -/
def corsHeaders : List (String × String) :=
  [("Access-Control-Allow-Origin", "*"),
   ("Access-Control-Allow-Methods", "GET, POST, OPTIONS"),
   ("Access-Control-Allow-Headers", "Content-Type, Access-Control-Request-Private-Network"),
   ("Access-Control-Max-Age", "86400"),
   ("Access-Control-Allow-Private-Network", "true")]

/-- The observable outcome of `_handleRequest`: the headers set, the
status and body when the dispatcher itself writes the response (`none`
when a matched handler owns it), and the handler invocation with its
extracted params, if any. -/
structure HttpResponse where
  headers : List (String × String)
  status : Option Nat
  body : Option String
  handlerCall : Option (Nat × List (String × String))
deriving DecidableEq, Repr

/-- `_handleRequest(req, res)` (lines 111-134): set the CORS headers;
short-circuit `OPTIONS` with an empty 200; otherwise find the route,
invoke its handler with the extracted params, or answer 404 with the
JSON body `JSON.stringify(\x7b error: 'Route not found' \x7d)`. -/
def handleRequest (rs : List RouteEntry) (method pathname : String) : HttpResponse :=
  if method == "OPTIONS" then
    { headers := corsHeaders, status := some 200, body := some "", handlerCall := none }
  else
    match findRoute rs method pathname with
    | some f =>
      { headers := corsHeaders, status := none, body := none
        handlerCall := some (f.handlerId, extractParams pathname f.route) }
    | none =>
      { headers := corsHeaders, status := some 404
        body := some "\x7b\x22error\x22:\x22Route not found\x22\x7d"
        handlerCall := none }

example :
    (handleRequest (registerRoute [] "GET" "/pages/:slug" 3) "GET" "/pages/abc-2").handlerCall
      = some (3, [("slug", "abc-2")]) := by decide

example :
    (handleRequest (registerRoute [] "GET" "/images/*" 7) "GET" "/images/a/b/c.png").handlerCall
      = some (7, []) := by decide

/-! ## ServerManager lifecycle (start / stop / isRunning) -/

/-- What the OS reports for the `listen` attempt: success, `EADDRINUSE`,
or another error (its message). -/
inductive BindOutcome where
  | ok
  | addrInUse
  | otherErr (msg : String)
deriving DecidableEq, Repr

/-- The `ServerManager` instance field the lifecycle claims are about:
`this.server` (line 30). -/
structure SMState where
  server : Option Unit
deriving DecidableEq, Repr

/-- The outcome of one `start()` call: resolved, the synchronous
`throw new Error('Server is already running')` (line 43), or the promise
rejection produced by the `error` event (lines 55-61). -/
inductive SmStartResult where
  | ok
  | alreadyRunningErr
  | rejected (msg : String)
deriving DecidableEq, Repr

/-- `ServerManager.start()` (lines 41-63): throw when `this.server` is
set; otherwise assign `this.server = http.createServer(...)` before
calling `listen`, then resolve on the listening callback or reject on the
`error` event — without resetting `this.server` in the error case. -/
def smStart (s : SMState) (port : Nat) (bind : BindOutcome) : SMState × SmStartResult :=
  if s.server.isSome then (s, .alreadyRunningErr)
  else
    let s1 : SMState := { server := some () }
    match bind with
    | .ok => (s1, .ok)
    | .addrInUse => (s1, .rejected ("Port " ++ toString port ++ " is already in use"))
    | .otherErr m => (s1, .rejected m)

/-- `ServerManager.stop()` (lines 70-81): a no-op when `this.server` is
null; otherwise `close` and null the field in the close callback (Node
invokes the callback even when the server never reached listening). -/
def smStop (s : SMState) : SMState :=
  if s.server.isSome then { server := none } else s

/-- `isRunning()` (lines 88-90). -/
def isRunning (s : SMState) : Bool :=
  s.server.isSome

/-! ## TunnelManager binary provisioning (`_ensureCloudflared`)

Lines 284-376.  Filesystem, subprocess and network effects are abstracted
into an environment record; the resolution logic itself is the code's.
The result carries the resolved path together with a flag recording
whether the download path (the only network access) was taken. -/

/-- The environment `_ensureCloudflared` probes: the platform, the
configured plugin directory, whether the managed binary exists and passes
`--version`, the trimmed output of `which`/`where` when that succeeds
with nonempty output, which well-known install paths pass `--version`,
and the outcome of `_downloadCloudflared` (lines 219-275) when reached. -/
structure ProvisionEnv where
  osName : String
  pluginDir : Option String
  localExists : Bool
  localVerifies : Bool
  whichFound : Option String
  pathVerifies : String → Bool
  downloadOutcome : Except String String

/-- `path.join` for the simple relative segments used here. -/
def joinPath (a b : String) : String :=
  a ++ "/" ++ b

/-- `_getBinDir()` (lines 69-72). -/
def binDir (env : ProvisionEnv) : Option String :=
  env.pluginDir.map (fun d => joinPath d "bin")

/-- `_getLocalBinaryPath()` (lines 79-86). -/
def localBinaryPath (env : ProvisionEnv) : Option String :=
  (binDir env).map (fun d =>
    joinPath d (if env.osName == "win32" then "cloudflared.exe" else "cloudflared"))

/-- The per-OS well-known install paths (lines 312-323). -/
def systemPaths (os : String) : List String :=
  if os == "darwin" then
    ["/opt/homebrew/bin/cloudflared", "/usr/local/bin/cloudflared"]
  else if os == "linux" then
    ["/usr/local/bin/cloudflared", "/usr/bin/cloudflared"]
  else if os == "win32" then
    ["C:\\Program Files\\Cloudflare\\cloudflared.exe",
     "C:\\Program Files (x86)\\Cloudflare\\cloudflared.exe"]
  else []

/-- First path of the list passing `--version` (the loop of lines
351-362). -/
def firstVerifying (verifies : String → Bool) : List String → Option String
  | [] => none
  | p :: ps => if verifies p then some p else firstVerifying verifies ps

/-- First line of the `where` output (line 334). -/
def firstLine (s : String) : String :=
  String.mk (s.data.takeWhile (· != '\n'))

/-- `_downloadCloudflared()` as seen from the resolution logic: its
outcome, with the network-access flag set. -/
def downloadStep (env : ProvisionEnv) : Except String (String × Bool) :=
  match env.downloadOutcome with
  | .ok p => .ok (p, true)
  | .error e => .error e

/-- Steps 2-4 of `_ensureCloudflared` (lines 302-376): the
bundled-only branch, the `which`/`where` probe, the well-known paths,
then download or the final error. -/
def ensureRest (env : ProvisionEnv) (useBundledOnly : Bool) :
    Except String (String × Bool) :=
  if useBundledOnly then
    if env.pluginDir.isSome then downloadStep env
    else .error ("Bundled cloudflared only is enabled but plugin directory is " ++
      "not available. Disable the option in Settings or use system cloudflared.")
  else
    match env.whichFound with
    | some r =>
      .ok (if env.osName == "win32" then firstLine r else r, false)
    | none =>
      match firstVerifying env.pathVerifies (systemPaths env.osName) with
      | some p => .ok (p, false)
      | none =>
        if env.pluginDir.isSome then downloadStep env
        else .error ("cloudflared not found. Please install it:\n" ++
          "• macOS: brew install cloudflared\n" ++
          "• Windows: winget install Cloudflare.cloudflared\n" ++
          "• Linux: https://developers.cloudflare.com/cloudflare-one/connections/connect-apps/install-and-setup/installation/")

/-- `_ensureCloudflared(useBundledOnly)` (lines 284-376): step 1 returns
the managed binary when it exists and passes `--version`; otherwise fall
through to the system probes / download. -/
def ensureCloudflared (env : ProvisionEnv) (useBundledOnly : Bool) :
    Except String (String × Bool) :=
  match localBinaryPath env with
  | some p =>
    if env.localExists && env.localVerifies then .ok (p, false)
    else ensureRest env useBundledOnly
  | none => ensureRest env useBundledOnly

/-! ## Helper lemmas -/

/-- A settled promise ignores a later `resolve`. -/
theorem resolveWith_of_ne_pending (p : PromiseState) (u : String)
    (h : p ≠ .pending) : p.resolveWith u = p := by
  cases p with
  | pending => exact absurd rfl h
  | resolved v => rfl
  | rejected e => rfl

/-- A settled promise ignores a later `reject`. -/
theorem rejectWith_of_ne_pending (p : PromiseState) (e : TunnelError)
    (h : p ≠ .pending) : p.rejectWith e = p := by
  cases p with
  | pending => exact absurd rfl h
  | resolved v => rfl
  | rejected f => rfl

/-- `tryResolveUrl` never changes the settlement of an already settled
promise. -/
theorem tryResolveUrl_promise_stable (s : Acq) (t : String)
    (h : s.promise ≠ .pending) : (tryResolveUrl s t).promise = s.promise := by
  unfold tryResolveUrl
  split
  · rfl
  · cases hf : findHostname t with
    | none => simp [hf]
    | some u => simp [hf, resolveWith_of_ne_pending _ _ h]

/-- `tryResolveUrl` does not touch the `output` buffer. -/
theorem tryResolveUrl_output (s : Acq) (t : String) :
    (tryResolveUrl s t).output = s.output := by
  unfold tryResolveUrl
  split
  · rfl
  · cases hf : findHostname t with
    | none => simp [hf]
    | some u => simp [hf]

/-- `tryResolveUrl` does not touch the `errorOutput` buffer. -/
theorem tryResolveUrl_errorOutput (s : Acq) (t : String) :
    (tryResolveUrl s t).errorOutput = s.errorOutput := by
  unfold tryResolveUrl
  split
  · rfl
  · cases hf : findHostname t with
    | none => simp [hf]
    | some u => simp [hf]

/-- No single event-loop callback changes an already settled promise:
JS promises settle once. -/
theorem step_promise_stable (s : Acq) (e : Event)
    (h : s.promise ≠ .pending) : (step s e).promise = s.promise := by
  cases e with
  | stdoutData t => exact tryResolveUrl_promise_stable _ t h
  | stderrData t => exact tryResolveUrl_promise_stable _ t h
  | procError en m => simp [step, rejectWith_of_ne_pending _ _ h]
  | close code =>
    simp only [step]
    split
    · rfl
    · split
      · split
        · simp [rejectWith_of_ne_pending _ _ h]
        · rfl
      · rfl
  | timerFire =>
    simp only [step]
    split
    · split
      · rfl
      · simp [rejectWith_of_ne_pending _ _ h]
    · rfl

/-- No sequence of later callbacks changes an already settled promise. -/
theorem runEvents_promise_stable (evs : List Event) (s : Acq)
    (h : s.promise ≠ .pending) : (runEvents s evs).promise = s.promise := by
  induction evs generalizing s with
  | nil => rfl
  | cons e evs ih =>
    have hs : (step s e).promise = s.promise := step_promise_stable s e h
    have hrest : (runEvents (step s e) evs).promise = (step s e).promise :=
      ih (step s e) (by rw [hs]; exact h)
    calc (runEvents s (e :: evs)).promise
        = (runEvents (step s e) evs).promise := rfl
      _ = (step s e).promise := hrest
      _ = s.promise := hs

/-- Splitting an event run at a marked event. -/
theorem runEvents_append (s : Acq) (a b : List Event) :
    runEvents s (a ++ b) = runEvents (runEvents s a) b := by
  simp [runEvents, List.foldl_append]

/-- An event without a hostname match leaves a null `publicUrl` null. -/
theorem step_publicUrl_none (s : Acq) (e : Event)
    (hu : s.tm.publicUrl = none) (he : eventHasHostname e = false) :
    (step s e).tm.publicUrl = none := by
  cases e with
  | stdoutData t =>
    show (tryResolveUrl { s with output := s.output ++ t } t).tm.publicUrl = none
    unfold tryResolveUrl
    split
    · exact hu
    · cases hf : findHostname t with
      | none => simp [hf, hu]
      | some u => simp [eventHasHostname, hf] at he
  | stderrData t =>
    show (tryResolveUrl { s with errorOutput := s.errorOutput ++ t } t).tm.publicUrl = none
    unfold tryResolveUrl
    split
    · exact hu
    · cases hf : findHostname t with
      | none => simp [hf, hu]
      | some u => simp [eventHasHostname, hf] at he
  | procError en m => exact hu
  | close code =>
    simp only [step]
    split
    · exact hu
    · split
      · split
        · rfl
        · exact hu
      · exact hu
  | timerFire =>
    simp only [step]
    split
    · split
      · exact hu
      · exact hu
    · exact hu

/-- Over a whole run without hostname matches, a null `publicUrl` stays
null. -/
theorem runEvents_publicUrl_none (evs : List Event) (s : Acq)
    (hu : s.tm.publicUrl = none)
    (he : ∀ ev ∈ evs, eventHasHostname ev = false) :
    (runEvents s evs).tm.publicUrl = none := by
  induction evs generalizing s with
  | nil => exact hu
  | cons e evs ih =>
    exact ih (step s e)
      (step_publicUrl_none s e hu (he e (List.mem_cons_self e evs)))
      (fun ev hm => he ev (List.mem_cons_of_mem e hm))

/-- A list is a Boolean prefix of itself followed by anything. -/
theorem isPrefixOf_append_self (p l : List Char) :
    (p.isPrefixOf (p ++ l)) = true := by
  simp only [List.isPrefixOf_iff_prefix]
  exact List.prefix_append p l

/-! ## Claim theorems -/

/-- C1: for every `start()` call in which the 30 s timer fires while no
hostname has been matched (`urlResolved` false), the timer still armed and
the promise still pending, the call settles as rejected with the
acquisition-timeout error carrying the first 500 characters of the
captured output — and it stays so under ANY sequence of later events,
including output chunks carrying a matching hostname: a late match cannot
resolve the already-rejected promise, because a JS promise settles once. -/
theorem tunnel_timeout_wins_settle_once (pre post : List Event)
    (h1 : (runEvents startAcq pre).urlResolved = false)
    (h2 : (runEvents startAcq pre).timerActive = true)
    (h3 : (runEvents startAcq pre).promise = .pending) :
    (runEvents startAcq (pre ++ Event.timerFire :: post)).promise =
      .rejected (.acquisitionTimeout (jsSubstring500
        ((runEvents startAcq pre).output ++ (runEvents startAcq pre).errorOutput))) := by
  have hsplit : runEvents startAcq (pre ++ Event.timerFire :: post) =
      runEvents (step (runEvents startAcq pre) .timerFire) post := by
    simp [runEvents, List.foldl_append]
  set s1 := runEvents startAcq pre with hs1
  have hstep : (step s1 .timerFire).promise =
      .rejected (.acquisitionTimeout (jsSubstring500 (s1.output ++ s1.errorOutput))) := by
    simp [step, h1, h2, h3, PromiseState.rejectWith]
  rw [hsplit, runEvents_promise_stable post (step s1 .timerFire) (by rw [hstep]; simp)]
  exact hstep

/-- Witness for C1: timer fires first from the fresh call state, then a
matching hostname chunk arrives; the call stays rejected with the timeout
error over the empty diagnostic buffer. -/
theorem tunnel_timeout_wins_settle_once_witness :
    (runEvents startAcq
        ([] ++ Event.timerFire :: [Event.stdoutData "https://abc.trycloudflare.com"])).promise =
      .rejected (.acquisitionTimeout (jsSubstring500
        ((runEvents startAcq []).output ++ (runEvents startAcq []).errorOutput))) :=
  tunnel_timeout_wins_settle_once [] [Event.stdoutData "https://abc.trycloudflare.com"]
    rfl rfl rfl

/-- C2 counterexample: a second `start()` call arriving while the first is
still awaiting `_ensureCloudflared` (provisioning in progress, hostname
not yet observed) observes `this.tunnel === null` — the first call has not
written any instance field yet — so the entry guard does NOT reject it
with the already-running error; it proceeds into a second acquisition. -/
theorem second_start_during_provisioning_not_rejected :
    startEntry { tunnel := none, publicUrl := none } = .ok () ∧
    startEntry (duringProvisioning { tunnel := none, publicUrl := none }) = .ok () ∧
    startEntry (duringProvisioning { tunnel := none, publicUrl := none }) ≠
      .error .alreadyActive := by
  refine ⟨rfl, rfl, by simp [startEntry, duringProvisioning]⟩

/-- C2 amended: a second `start()` is rejected immediately with the
already-active error exactly once the first call has assigned
`this.tunnel = spawn(...)` (and until the field is cleared); a second call
arriving while the first is still provisioning is NOT rejected. -/
theorem start_guard_soundness (tm : TMState) :
    startEntry (afterSpawn tm) = .error .alreadyActive ∧
    startEntry (duringProvisioning { tunnel := none, publicUrl := none }) = .ok () := by
  exact ⟨by simp [startEntry, afterSpawn], rfl⟩

/-- C3 counterexample: from a fresh `start()`, the timer fires (call
rejected, `this.tunnel` nulled) and then a hostname chunk arrives; since
the timeout handler never set `urlResolved`, `tryResolveUrl` stores the
hostname, leaving `getPublicUrl()` non-null while `isActive()` is false —
the claimed invariant fails in a reachable state. -/
theorem late_hostname_after_timeout_breaks_invariant :
    isActive (runEvents startAcq
      [Event.timerFire, Event.stdoutData "INF https://late.trycloudflare.com"]).tm = false ∧
    getPublicUrl (runEvents startAcq
      [Event.timerFire, Event.stdoutData "INF https://late.trycloudflare.com"]).tm =
      some "https://late.trycloudflare.com" := by
  decide

/-- C3 amended: `getPublicUrl()` is null as long as no output chunk has
carried a hostname match (in particular before any hostname is observed),
and `stop()` on an active session deactivates it and nulls the hostname;
but the full non-null-iff-Active invariant fails (see the counterexample:
a hostname arriving after the timeout leaves the hostname set while
inactive). -/
theorem publicUrl_null_before_observation_and_after_stop
    (tm : TMState) (evs : List Event) :
    (tm.tunnel = some () →
      isActive (stopTM tm) = false ∧ getPublicUrl (stopTM tm) = none) ∧
    ((∀ ev ∈ evs, eventHasHostname ev = false) →
      getPublicUrl (runEvents startAcq evs).tm = none) := by
  constructor
  · intro h
    simp [stopTM, h, isActive, getPublicUrl]
  · intro he
    exact runEvents_publicUrl_none evs startAcq rfl he

/-- Witness for C3 amended: `stop()` on an active session with a stored
hostname nulls both fields, and a run with a non-matching chunk plus the
timeout keeps the hostname null. -/
theorem publicUrl_null_before_observation_and_after_stop_witness :
    (isActive (stopTM { tunnel := some (), publicUrl := some "https://x.trycloudflare.com" }) = false ∧
      getPublicUrl (stopTM { tunnel := some (), publicUrl := some "https://x.trycloudflare.com" }) = none) ∧
    getPublicUrl (runEvents startAcq [Event.stdoutData "booting", Event.timerFire]).tm = none :=
  ⟨(publicUrl_null_before_observation_and_after_stop
      { tunnel := some (), publicUrl := some "https://x.trycloudflare.com" } []).1 rfl,
   (publicUrl_null_before_observation_and_after_stop { tunnel := none, publicUrl := none }
      [Event.stdoutData "booting", Event.timerFire]).2 (by decide)⟩

/-- C4 counterexample: a subprocess that exits on its own with code 0
before anything settled the call does NOT reject `start()`: the `close`
handler only rejects for a nonzero, non-null code, so the acquisition
state is left entirely unchanged and the promise stays pending (until the
timeout). The claim promised a premature-exit rejection for any exit
code. -/
theorem close_code_zero_does_not_reject :
    step startAcq (.close (some 0)) = startAcq ∧
    (step startAcq (.close (some 0))).promise = .pending ∧
    step startAcq (.close none) = startAcq := by
  decide

/-- C4 amended: if the subprocess exits with a nonzero (non-null) code
before the call settled, `start()` rejects with the premature-exit error
carrying the exit code and the first 500 characters of the captured
output, and nulls the instance fields; an exit with code 0 or null leaves
the call pending. -/
theorem close_nonzero_rejects_with_code_and_diag (s : Acq) (c : Int)
    (h1 : s.urlResolved = false) (h2 : s.promise = .pending) (h3 : c ≠ 0) :
    (step s (.close (some c))).promise =
      .rejected (.prematureExit c (jsSubstring500 (s.output ++ s.errorOutput))) ∧
    (step s (.close (some c))).tm = { tunnel := none, publicUrl := none } ∧
    (step s (.close (some 0))).promise = .pending ∧
    (step s (.close none)).promise = .pending := by
  refine ⟨?_, ?_, ?_, ?_⟩ <;>
    simp [step, h1, h2, h3, PromiseState.rejectWith]

/-- Witness for C4 amended at exit code 1 from the fresh call state. -/
theorem close_nonzero_rejects_with_code_and_diag_witness :
    (step startAcq (.close (some 1))).promise =
      .rejected (.prematureExit 1 (jsSubstring500 (startAcq.output ++ startAcq.errorOutput))) ∧
    (step startAcq (.close (some 1))).tm = { tunnel := none, publicUrl := none } ∧
    (step startAcq (.close (some 0))).promise = .pending ∧
    (step startAcq (.close none)).promise = .pending :=
  close_nonzero_rejects_with_code_and_diag startAcq 1 rfl rfl (by decide)

set_option maxRecDepth 20000 in
/-- C5 counterexample: a single 501-character chunk leaves the `output`
buffer at length 501 — nothing is dropped on append, so the in-memory
diagnostic buffer is NOT bounded by the ≈500-character cap at all times;
it grows with every chunk. -/
theorem diagnostic_buffer_unbounded :
    (runEvents startAcq
      [Event.stdoutData (String.mk (List.replicate 501 'x'))]).output.length = 501 ∧
    500 < (runEvents startAcq
      [Event.stdoutData (String.mk (List.replicate 501 'x'))]).output.length := by
  have h1 : (runEvents startAcq
      [Event.stdoutData (String.mk (List.replicate 501 'x'))]).output =
      startAcq.output ++ String.mk (List.replicate 501 'x') :=
    tryResolveUrl_output
      { startAcq with output := startAcq.output ++ String.mk (List.replicate 501 'x') }
      (String.mk (List.replicate 501 'x'))
  have h2 : (startAcq.output ++ String.mk (List.replicate 501 'x')).length = 501 := by
    show (List.nil ++ List.replicate 501 'x').length = 501
    simp
  rw [h1, h2]
  exact ⟨rfl, by omega⟩

/-- C5 amended: the buffers grow without bound — every chunk is appended
whole — and boundedness exists only at error-reporting time: the
diagnostic attached to the timeout rejection is the first 500 characters
of the concatenated output (a prefix, so the NEWEST content beyond the
cap is dropped, not the oldest). -/
theorem buffers_append_and_error_diag_bounded (s : Acq) (t : String)
    (h1 : s.timerActive = true) (h2 : s.urlResolved = false)
    (h3 : s.promise = .pending) :
    (step s (.stdoutData t)).output = s.output ++ t ∧
    (step s (.stderrData t)).errorOutput = s.errorOutput ++ t ∧
    (step s .timerFire).promise =
      .rejected (.acquisitionTimeout (jsSubstring500 (s.output ++ s.errorOutput))) ∧
    (jsSubstring500 (s.output ++ s.errorOutput)).length ≤ 500 ∧
    (jsSubstring500 (s.output ++ s.errorOutput)).data.isPrefixOf
      (s.output ++ s.errorOutput).data = true := by
  refine ⟨?_, ?_, ?_, ?_, ?_⟩
  · exact tryResolveUrl_output _ t
  · exact tryResolveUrl_errorOutput _ t
  · simp [step, h1, h2, h3, PromiseState.rejectWith]
  · show ((s.output ++ s.errorOutput).data.take 500).length ≤ 500
    rw [List.length_take]
    exact Nat.min_le_left _ _
  · show (((s.output ++ s.errorOutput).data.take 500).isPrefixOf
      (s.output ++ s.errorOutput).data) = true
    simp only [List.isPrefixOf_iff_prefix]
    exact List.take_prefix 500 _

/-- Witness for C5 amended from the fresh call state and a short chunk. -/
theorem buffers_append_and_error_diag_bounded_witness :
    (step startAcq (.stdoutData "hello")).output = startAcq.output ++ "hello" ∧
    (step startAcq (.stderrData "hello")).errorOutput = startAcq.errorOutput ++ "hello" ∧
    (step startAcq .timerFire).promise =
      .rejected (.acquisitionTimeout (jsSubstring500 (startAcq.output ++ startAcq.errorOutput))) ∧
    (jsSubstring500 (startAcq.output ++ startAcq.errorOutput)).length ≤ 500 ∧
    (jsSubstring500 (startAcq.output ++ startAcq.errorOutput)).data.isPrefixOf
      (startAcq.output ++ startAcq.errorOutput).data = true :=
  buffers_append_and_error_diag_bounded startAcq "hello" rfl rfl rfl

/-- C6 counterexample: for the registered route `GET /images/*`, the
request `GET /images/a/b/c.png` does match and invoke the handler, but
the wildcard regex `^\/images/.*$` has no capture group and the route has
no `:name` segments, so the params object is EMPTY — the handler does not
receive the remaining path `a/b/c.png` in its params argument. -/
theorem wildcard_params_empty :
    (handleRequest (registerRoute [] "GET" "/images/*" 7) "GET" "/images/a/b/c.png").handlerCall
      = some (7, []) ∧
    extractParams "/images/a/b/c.png" "/images/*" = [] ∧
    ¬ ∃ n : String, (n, "a/b/c.png") ∈ extractParams "/images/a/b/c.png" "/images/*" := by
  have hc : extractParams "/images/a/b/c.png" "/images/*" = [] := by decide
  refine ⟨by decide, hc, ?_⟩
  rw [hc]
  rintro ⟨n, hn⟩
  exact List.not_mem_nil _ hn

/-- C6 amended: a request whose path extends `/images/` with any nonempty
remainder (no line terminators, which cannot occur in a URL pathname)
matches the wildcard route and invokes its handler — but the params passed
to the handler are always empty; the remaining path is not extracted. -/
theorem wildcard_matches_but_no_params (rest : String)
    (hne : rest.data ≠ []) (hnl : rest.data.all noLineTerminator = true) :
    routeMatches "/images/*" ("/images/" ++ rest) = true ∧
    extractParams ("/images/" ++ rest) "/images/*" = [] := by
  obtain ⟨l⟩ := rest
  have hwild : routeIsWildcard "/images/*".data = true := by decide
  have hbase : ("/images/*".data.dropLast.dropLast) = "/images".data := by decide
  have hjoin : "/images".data ++ ['/'] = "/images/".data := by decide
  have hlen : ("/images".data : List Char).length + 1 = 8 := by decide
  have hlen8 : ("/images/".data : List Char).length = 8 := by decide
  have hdrop : ("/images/".data ++ l).drop 8 = l := by
    rw [← hlen8]
    exact List.drop_left _ _
  have hkey : wildcardMatches "/images".data ("/images/".data ++ l) = true := by
    unfold wildcardMatches
    rw [hjoin, hlen, hdrop, isPrefixOf_append_self]
    simpa using hnl
  have hcap : routeCaptures "/images/*" ("/images/" ++ String.mk l) = some [] := by
    show (if routeIsWildcard "/images/*".data then
        (if wildcardMatches ("/images/*".data.dropLast.dropLast)
            ("/images/" ++ String.mk l).data then some [] else none)
      else matchToks (parseRoute "/images/*".data) ("/images/" ++ String.mk l).data)
      = some []
    rw [String.data_append, hwild, hbase]
    show (if wildcardMatches "/images".data ("/images/".data ++ l) then some [] else none)
      = some []
    rw [hkey]
    simp
  constructor
  · show (routeCaptures "/images/*" ("/images/" ++ String.mk l)).isSome = true
    rw [hcap]
    rfl
  · show extractParams ("/images/" ++ String.mk l) "/images/*" = []
    unfold extractParams
    rw [hcap]
    decide

/-- Witness for C6 amended at the concrete remainder `a/b/c.png`. -/
theorem wildcard_matches_but_no_params_witness :
    routeMatches "/images/*" ("/images/" ++ "a/b/c.png") = true ∧
    extractParams ("/images/" ++ "a/b/c.png") "/images/*" = [] :=
  wildcard_matches_but_no_params "a/b/c.png" (by decide) (by decide)

/-- Replacement law of the JS `Map` route table: re-registering the same
key overwrites the handler in place. -/
theorem routesSet_replace (rs : List RouteEntry) (k : String) (h1 h2 : Nat) :
    routesSet (routesSet rs k h1) k h2 = routesSet rs k h2 := by
  induction rs with
  | nil => simp [routesSet]
  | cons r rs ih =>
    cases hk : r.key == k with
    | true => simp [routesSet, hk]
    | false => simp [routesSet, hk, ih]

/-- A registration with a fresh key appends at the end of the table. -/
theorem routesSet_fresh (rs : List RouteEntry) (k : String) (h : Nat)
    (hk : hasKey rs k = false) :
    routesSet rs k h = rs ++ [{ key := k, handlerId := h }] := by
  induction rs with
  | nil => rfl
  | cons r rs ih =>
    simp only [hasKey, List.any_cons, Bool.or_eq_false_iff] at hk
    simp [routesSet, hk.1, ih hk.2]

/-- C7 counterexample: registering two handlers for the same method and
identical literal pattern leaves ONE map entry holding the second
handler, and dispatch invokes the second (last-registered) handler — not
the first-registered one the claim promises. -/
theorem duplicate_route_last_wins :
    registerRoute (registerRoute [] "GET" "/pages" 1) "GET" "/pages" 2 =
      [{ key := "GET:/pages", handlerId := 2 }] ∧
    (handleRequest (registerRoute (registerRoute [] "GET" "/pages" 1) "GET" "/pages" 2)
        "GET" "/pages").handlerCall = some (2, []) := by
  decide

/-- C7 amended: both registrations are accepted without error, but the
route table is a JS `Map` keyed by `method:path`, so the second
registration with identical literal text replaces the first in place and
the LAST-registered handler is invoked; a registration with a fresh key
appends at the end, and dispatch tries entries in registration order with
the first match winning. -/
theorem route_table_order_semantics (rs rs2 : List RouteEntry)
    (m p pathname : String) (h1 h2 : Nat) (r : RouteEntry) :
    (registerRoute (registerRoute rs m p h1) m p h2 = registerRoute rs m p h2) ∧
    (hasKey rs (m ++ ":" ++ p) = false →
      registerRoute rs m p h1 = rs ++ [{ key := m ++ ":" ++ p, handlerId := h1 }]) ∧
    (((splitKey r.key).1 == m && routeMatches (splitKey r.key).2 pathname) = true →
      findRoute (r :: rs2) m pathname =
        some { handlerId := r.handlerId, route := (splitKey r.key).2 }) := by
  refine ⟨routesSet_replace rs _ h1 h2, fun hk => routesSet_fresh rs _ h1 hk, fun hm => ?_⟩
  simp [findRoute, hm]

/-- Witness for C7 amended: fresh registration appends; a matching head
entry wins dispatch. -/
theorem route_table_order_semantics_witness :
    (registerRoute [] "GET" "/a" 1 =
      [] ++ [{ key := "GET" ++ ":" ++ "/a", handlerId := 1 }]) ∧
    (findRoute [{ key := "GET:/a", handlerId := 9 }] "GET" "/a" =
      some { handlerId := 9, route := (splitKey "GET:/a").2 }) :=
  ⟨(route_table_order_semantics [] [] "GET" "/a" "/a" 1 2
      { key := "GET:/a", handlerId := 9 }).2.1 (by decide),
   (route_table_order_semantics [] [{ key := "GET:/a", handlerId := 9 }] "GET" "/a" "/a" 1 2
      { key := "GET:/a", handlerId := 9 }).2.2 (by decide)⟩

/-- C8: every `OPTIONS` request is answered 200 with an empty body right
after the five uniform CORS headers are set, with no handler invoked and
no route matching — the response is the same whatever the route table and
whatever the path. -/
theorem options_preflight_short_circuit (rs rs2 : List RouteEntry) (pathname : String) :
    handleRequest rs "OPTIONS" pathname =
      { headers := corsHeaders, status := some 200, body := some "", handlerCall := none } ∧
    handleRequest rs "OPTIONS" pathname = handleRequest rs2 "OPTIONS" pathname ∧
    corsHeaders.length = 5 := by
  exact ⟨rfl, rfl, rfl⟩

/-- C9: whenever the managed binary exists at the plugin-directory
location and passes the `--version` verification, `_ensureCloudflared
false` returns that managed path by short-circuiting at step 1 — the
result holds for EVERY state of the system paths, `which` probe and
download outcome, and the network-access flag is false. -/
theorem managed_binary_short_circuits (env : ProvisionEnv) (d : String)
    (h1 : env.pluginDir = some d) (h2 : env.localExists = true)
    (h3 : env.localVerifies = true) :
    ensureCloudflared env false =
      .ok (joinPath (joinPath d "bin")
        (if env.osName == "win32" then "cloudflared.exe" else "cloudflared"), false) := by
  simp [ensureCloudflared, localBinaryPath, binDir, h1, h2, h3]

/-- Witness for C9: a pre-seeded verified managed binary on Linux with no
system copies and a failing (offline) download still resolves to the
managed path with no network access. -/
theorem managed_binary_short_circuits_witness :
    ensureCloudflared
      { osName := "linux", pluginDir := some "/plugdir", localExists := true,
        localVerifies := true, whichFound := none, pathVerifies := fun _ => false,
        downloadOutcome := .error "offline" } false =
      .ok (joinPath (joinPath "/plugdir" "bin") "cloudflared", false) :=
  managed_binary_short_circuits
    { osName := "linux", pluginDir := some "/plugdir", localExists := true,
      localVerifies := true, whichFound := none, pathVerifies := fun _ => false,
      downloadOutcome := .error "offline" } "/plugdir" rfl rfl rfl

/-- C10: when `start()` rejects because binding fails (for example
`EADDRINUSE`), `this.server` is left set: `isRunning()` returns true,
every later `start()` call (whatever its bind outcome would be) throws
the already-running error while leaving the state unchanged, and `stop()`
resets the field to null. -/
theorem failed_bind_leaves_server_set (p q : Nat) (b : BindOutcome) :
    (smStart { server := none } p .addrInUse).2 =
      .rejected ("Port " ++ toString p ++ " is already in use") ∧
    isRunning (smStart { server := none } p .addrInUse).1 = true ∧
    (smStart (smStart { server := none } p .addrInUse).1 q b).2 = .alreadyRunningErr ∧
    (smStart (smStart { server := none } p .addrInUse).1 q b).1 =
      (smStart { server := none } p .addrInUse).1 ∧
    smStop (smStart { server := none } p .addrInUse).1 = { server := none } := by
  exact ⟨rfl, rfl, rfl, rfl, rfl⟩
